import Mathlib

/-!
Verification of the metrics engine of the ai-project-management-dashboard
repository (`src/analytics.py`, class `ProjectAnalytics`).

Numeric values are modelled as rationals.  Python's `round(x, n)` is
modelled by `roundTo n`, Python's `int(x)` truncation by `truncQ`, the
mutable `metrics_cache` dict by an explicit function
`String → Option ProjectMetrics` threaded through the operations, and
`datetime.now()` by an explicit timestamp argument `now : ℕ`.
-/

namespace Analytics

/-- Python `round(x, n)`: round `x` to `n` decimal places. -/
def roundTo (n : ℕ) (x : ℚ) : ℚ := ((round (x * 10 ^ n) : ℤ) : ℚ) / 10 ^ n

/-- Python `int(x)`: truncation toward zero. -/
def truncQ (x : ℚ) : ℤ := if 0 ≤ x then ⌊x⌋ else ⌈x⌉

/-- `ProjectMetrics` dataclass from `analytics.py`. -/
structure ProjectMetrics where
  project_id : String
  schedule_performance_index : ℚ
  cost_performance_index : ℚ
  budget_variance : ℚ
  schedule_variance : ℚ
  risk_score : ℚ
  team_utilization : ℚ
  completion_percentage : ℚ
  health_status : String
  calculated_at : ℕ
deriving DecidableEq, Repr

/-- The `metrics_cache` dict: project id to most recently computed metrics. -/
def Cache : Type := String → Option ProjectMetrics

/-- The empty cache (`self.metrics_cache = {}` in `__init__`). -/
def Cache.empty : Cache := fun _ => none

/-- `calculate_schedule_performance_index` from `analytics.py`:
`earned_value / planned_value` rounded to 3 decimals, `0.0` when
`planned_value == 0`. -/
def calculate_schedule_performance_index (earned_value planned_value : ℚ) : ℚ :=
  if planned_value = 0 then 0
  else roundTo 3 (earned_value / planned_value)

/-- `calculate_cost_performance_index` from `analytics.py`:
`earned_value / actual_cost` rounded to 3 decimals, `0.0` when
`actual_cost == 0`. -/
def calculate_cost_performance_index (earned_value actual_cost : ℚ) : ℚ :=
  if actual_cost = 0 then 0
  else roundTo 3 (earned_value / actual_cost)

/-- Threshold constants from `analytics.py`. -/
def SCHEDULE_THRESHOLD_YELLOW : ℚ := 95 / 100
def SCHEDULE_THRESHOLD_RED : ℚ := 85 / 100
def COST_THRESHOLD_YELLOW : ℚ := 90 / 100
def COST_THRESHOLD_RED : ℚ := 75 / 100

/-- `calculate_project_health` from `analytics.py`: tiered schedule and cost
components, a linear risk adjustment, then a threshold classification; the
returned percentage is `int(score)`. -/
def calculate_project_health (spi cpi risk_score : ℚ) : String × ℤ :=
  let score : ℚ :=
    (if spi ≥ 1 then 40
     else if spi ≥ SCHEDULE_THRESHOLD_YELLOW then 25
     else if spi ≥ SCHEDULE_THRESHOLD_RED then 10
     else 0)
  let score : ℚ := score +
    (if cpi ≥ 1 then 40
     else if cpi ≥ COST_THRESHOLD_YELLOW then 25
     else if cpi ≥ COST_THRESHOLD_RED then 10
     else 0)
  let risk_adjustment : ℚ := max 0 (20 * (1 - risk_score / 100))
  let score : ℚ := score + risk_adjustment
  let status : String :=
    if score ≥ 75 then "Green"
    else if score ≥ 50 then "Yellow"
    else "Red"
  (status, truncQ score)

/-- `calculate_risk_score` from `analytics.py`: weighted schedule, cost and
factor components, total clamped to 100 and rounded to 1 decimal. -/
def calculate_risk_score (schedule_variance cost_variance : ℚ)
    (risk_factors : List ℚ) : ℚ :=
  let schedule_risk : ℚ := min 100 (|schedule_variance| * 10)
  let base_score : ℚ := schedule_risk * (3 / 10)
  let cost_risk : ℚ := min 100 (|cost_variance| * 10)
  let base_score : ℚ := base_score + cost_risk * (3 / 10)
  let base_score : ℚ :=
    if risk_factors.length ≠ 0 then
      base_score + (risk_factors.sum / risk_factors.length) * (4 / 10)
    else base_score
  let final_score : ℚ := min 100 base_score
  roundTo 1 final_score

/-- The `**kwargs` bag accepted by `calculate_metrics`: every recognized
field is optional (`none` models an absent key). -/
structure ProjectKwargs where
  earned_value : Option ℚ := none
  planned_value : Option ℚ := none
  actual_cost : Option ℚ := none
  schedule_variance : Option ℚ := none
  cost_variance : Option ℚ := none
  completion_percentage : Option ℚ := none
  team_utilization : Option ℚ := none
  risk_factors : Option (List ℚ) := none
deriving DecidableEq, Repr

/-- `calculate_metrics` from `analytics.py`: defaults absent fields, computes
SPI, CPI (neutral `1.0` unless `actual_cost > 0`), risk score and health
status, assembles a `ProjectMetrics` stamped `now`, and writes it into the
cache under `project_id`. -/
def calculate_metrics (cache : Cache) (now : ℕ) (project_id : String)
    (kw : ProjectKwargs) : ProjectMetrics × Cache :=
  let ev := kw.earned_value.getD 0
  let pv := kw.planned_value.getD 100
  let ac := kw.actual_cost.getD 0
  let sv := kw.schedule_variance.getD 0
  let cv := kw.cost_variance.getD 0
  let completion := kw.completion_percentage.getD 0
  let utilization := kw.team_utilization.getD 0
  let spi := calculate_schedule_performance_index ev pv
  let cpi := if ac > 0 then calculate_cost_performance_index ev ac else 1
  let risk_factors := kw.risk_factors.getD []
  let risk_score := calculate_risk_score sv cv risk_factors
  let health_status := (calculate_project_health spi cpi risk_score).1
  let metrics : ProjectMetrics :=
    { project_id := project_id
      schedule_performance_index := spi
      cost_performance_index := cpi
      budget_variance := cv
      schedule_variance := sv
      risk_score := risk_score
      team_utilization := utilization
      completion_percentage := completion
      health_status := health_status
      calculated_at := now }
  (metrics, fun k => if k = project_id then some metrics else cache k)

/-- `get_project_metrics` from `analytics.py`: pure cache lookup. -/
def get_project_metrics (cache : Cache) (project_id : String) :
    Option ProjectMetrics :=
  cache project_id

/-- One element of the `projects` list passed to `calculate_portfolio_metrics`:
a dict with an `id` key and an optional `data` sub-dict (absent `data`
defaults to the empty bag, as `proj.get('data', \x7b\x7d)` does). -/
structure PortfolioProject where
  id : String
  data : ProjectKwargs := {}
deriving DecidableEq, Repr

/-- The portfolio summary dict built by `calculate_portfolio_metrics`. -/
structure PortfolioMetrics where
  total_projects : ℕ
  avg_health_score : ℚ
  at_risk_count : ℕ
  avg_budget_utilization : ℚ
  avg_schedule_health : ℚ
deriving DecidableEq, Repr

/-- Accumulator state of the `for proj in projects` loop inside
`calculate_portfolio_metrics`: the evolving cache, the three collected
lists, and the running `at_risk_count`. -/
structure PortfolioLoopState where
  cache : Cache
  health_scores : List ℚ
  utilizations : List ℚ
  schedule_indices : List ℚ
  at_risk_count : ℕ

/-- One iteration of the portfolio loop: run `calculate_metrics`, append to
the collected lists, bump `at_risk_count` on a Red status. -/
def portfolio_step (now : ℕ) (st : PortfolioLoopState) (proj : PortfolioProject) :
    PortfolioLoopState :=
  let mc := calculate_metrics st.cache now proj.id proj.data
  { cache := mc.2
    health_scores := st.health_scores ++ [mc.1.risk_score]
    utilizations := st.utilizations ++ [mc.1.team_utilization]
    schedule_indices := st.schedule_indices ++ [mc.1.schedule_performance_index]
    at_risk_count :=
      st.at_risk_count + if mc.1.health_status = "Red" then 1 else 0 }

/-- `np.mean` over a collected list, with the `if list else 0` guard used in
`calculate_portfolio_metrics`. -/
def mean_or_zero (xs : List ℚ) : ℚ :=
  if xs.length ≠ 0 then xs.sum / xs.length else 0

/-- `calculate_portfolio_metrics` from `analytics.py`: empty input returns the
empty dict (modelled `none`) and leaves the cache alone; otherwise runs
`calculate_metrics` per project in order and averages the collected values. -/
def calculate_portfolio_metrics (cache : Cache) (now : ℕ)
    (projects : List PortfolioProject) : Option PortfolioMetrics × Cache :=
  if projects.length = 0 then (none, cache)
  else
    let st := projects.foldl (portfolio_step now)
      { cache := cache, health_scores := [], utilizations := [],
        schedule_indices := [], at_risk_count := 0 }
    (some
      { total_projects := projects.length
        avg_health_score := mean_or_zero st.health_scores
        at_risk_count := st.at_risk_count
        avg_budget_utilization := mean_or_zero st.utilizations
        avg_schedule_health := mean_or_zero st.schedule_indices },
     st.cache)

/-- The health score as the spec describes it (claim C1): a schedule tier,
a cost tier, and the linear risk adjustment, summed. -/
def health_score_spec (spi cpi risk_score : ℚ) : ℚ :=
  (if spi ≥ 1 then (40 : ℚ)
   else if spi ≥ 95 / 100 then 25
   else if spi ≥ 85 / 100 then 10
   else 0) +
  (if cpi ≥ 1 then (40 : ℚ)
   else if cpi ≥ 90 / 100 then 25
   else if cpi ≥ 75 / 100 then 10
   else 0) +
  max 0 (20 * (1 - risk_score / 100))

/-- The kwargs bag with every absent field replaced by its documented
default (claim C6). -/
def fillDefaults (kw : ProjectKwargs) : ProjectKwargs :=
  { earned_value := some (kw.earned_value.getD 0)
    planned_value := some (kw.planned_value.getD 100)
    actual_cost := some (kw.actual_cost.getD 0)
    schedule_variance := some (kw.schedule_variance.getD 0)
    cost_variance := some (kw.cost_variance.getD 0)
    completion_percentage := some (kw.completion_percentage.getD 0)
    team_utilization := some (kw.team_utilization.getD 0)
    risk_factors := some (kw.risk_factors.getD []) }

/-- The metrics record computed for one portfolio entry; the record returned
by `calculate_metrics` does not depend on the incoming cache, so the empty
cache serves as the canonical starting point. -/
def project_result (now : ℕ) (p : PortfolioProject) : ProjectMetrics :=
  (calculate_metrics Cache.empty now p.id p.data).1

/-- Bool test for a Red project, used to count `at_risk_count`. -/
def isRed (now : ℕ) (p : PortfolioProject) : Bool :=
  (project_result now p).health_status = "Red"

/-- The cache write performed for one project of the portfolio loop. -/
def portfolio_cache_step (now : ℕ) (c : Cache) (p : PortfolioProject) : Cache :=
  (calculate_metrics c now p.id p.data).2

/-! ## Helper lemmas -/

lemma round_q_mono {a b : ℚ} (h : a ≤ b) : round a ≤ round b := by
  rw [round_eq, round_eq]
  exact Int.floor_mono (by linarith)

lemma roundTo_nonneg (n : ℕ) {x : ℚ} (h : 0 ≤ x) : 0 ≤ roundTo n x := by
  unfold roundTo
  apply div_nonneg _ (by positivity)
  have h1 : round (0 : ℚ) ≤ round (x * 10 ^ n) := round_q_mono (by positivity)
  rw [round_zero] at h1
  exact_mod_cast h1

lemma roundTo_le_100 (n : ℕ) {x : ℚ} (h : x ≤ 100) : roundTo n x ≤ 100 := by
  unfold roundTo
  rw [div_le_iff₀ (by positivity)]
  have h1 : round (x * 10 ^ n) ≤ round ((100 : ℚ) * 10 ^ n) :=
    round_q_mono (mul_le_mul_of_nonneg_right h (by positivity))
  have h2 : round ((100 : ℚ) * 10 ^ n) = 100 * 10 ^ n := by
    have hc : (((100 * 10 ^ n : ℤ) : ℚ)) = 100 * 10 ^ n := by push_cast; ring
    rw [← hc, round_intCast]
  rw [h2] at h1
  exact_mod_cast h1

/-- `calculate_project_health` literally computes the spec-side score, then
classifies and truncates it. -/
lemma calculate_project_health_unfold (spi cpi r : ℚ) :
    calculate_project_health spi cpi r =
      ((if health_score_spec spi cpi r ≥ 75 then "Green"
        else if health_score_spec spi cpi r ≥ 50 then "Yellow"
        else "Red"),
       truncQ (health_score_spec spi cpi r)) := rfl

/-- The metrics record returned by `calculate_metrics` does not depend on the
incoming cache. -/
lemma calculate_metrics_fst (c : Cache) (now : ℕ) (pid : String)
    (kw : ProjectKwargs) :
    (calculate_metrics c now pid kw).1 = (calculate_metrics Cache.empty now pid kw).1 := rfl

/-- Closed form of `calculate_risk_score`. -/
lemma calculate_risk_score_eq (sv cv : ℚ) (rf : List ℚ) :
    calculate_risk_score sv cv rf =
      roundTo 1 (min 100
        (min 100 (|sv| * 10) * (3 / 10) + min 100 (|cv| * 10) * (3 / 10) +
          if rf ≠ [] then rf.sum / rf.length * (4 / 10) else 0)) := by
  unfold calculate_risk_score
  rcases eq_or_ne rf [] with h | h
  · subst h; simp
  · have hl : rf.length ≠ 0 := by simpa [List.length_eq_zero] using h
    simp [h, hl]

/-- Characterization of the portfolio loop: starting from any accumulator
state, the fold extends the collected lists with the per-project values (in
input order), counts the Red projects, and threads the cache writes. -/
lemma portfolio_foldl_spec (now : ℕ) (projects : List PortfolioProject)
    (st : PortfolioLoopState) :
    projects.foldl (portfolio_step now) st =
      { cache := projects.foldl (portfolio_cache_step now) st.cache
        health_scores := st.health_scores ++
          projects.map (fun p => (project_result now p).risk_score)
        utilizations := st.utilizations ++
          projects.map (fun p => (project_result now p).team_utilization)
        schedule_indices := st.schedule_indices ++
          projects.map (fun p => (project_result now p).schedule_performance_index)
        at_risk_count := st.at_risk_count + projects.countP (isRed now) } := by
  induction projects generalizing st with
  | nil => simp
  | cons p ps ih =>
    rw [List.foldl_cons, ih]
    have hred : ((calculate_metrics st.cache now p.id p.data).1.health_status = "Red")
        ↔ (isRed now p = true) := by
      rw [calculate_metrics_fst]
      simp [isRed, project_result]
    simp only [portfolio_step, portfolio_cache_step, List.foldl_cons,
      List.map_cons, List.countP_cons, PortfolioLoopState.mk.injEq]
    refine ⟨?_, ?_, ?_, ?_, ?_⟩ <;>
      first
        | trivial
        | (rw [List.append_assoc, List.singleton_append]; rfl)
        | (rw [if_congr hred rfl rfl]; split <;> omega)

/-! ## Claim theorems -/

/-- C5: `calculate_schedule_performance_index` returns `0.0` when
`planned_value == 0` (without raising), and `round(earned_value /
planned_value, 3)` otherwise. -/
theorem spi_correct (earned_value planned_value : ℚ) :
    calculate_schedule_performance_index earned_value planned_value =
      if planned_value = 0 then 0
      else roundTo 3 (earned_value / planned_value) := rfl

/-- C4: called directly, the CPI calculator returns `0.0` when
`actual_cost == 0` and `round(earned_value / actual_cost, 3)` otherwise;
inside `calculate_metrics` the CPI goes through the calculator only when
`actual_cost > 0` and is the neutral `1.0` otherwise, so an orchestrated
project with `actual_cost = 0` gets CPI `1.0`, not `0.0`. -/
theorem cpi_correct (ev ac : ℚ) (cache : Cache) (now : ℕ) (pid : String)
    (kw : ProjectKwargs) :
    calculate_cost_performance_index ev 0 = 0 ∧
    (calculate_cost_performance_index ev ac =
      if ac = 0 then 0 else roundTo 3 (ev / ac)) ∧
    ((calculate_metrics cache now pid kw).1.cost_performance_index =
      if kw.actual_cost.getD 0 > 0 then
        calculate_cost_performance_index (kw.earned_value.getD 0)
          (kw.actual_cost.getD 0)
      else 1) ∧
    ((calculate_metrics cache now pid
        { kw with actual_cost := some 0 }).1.cost_performance_index = 1) := by
  refine ⟨by simp [calculate_cost_performance_index], rfl, rfl, ?_⟩
  simp [calculate_metrics]

/-- C2: `calculate_risk_score` returns `round(min(100, S + C + F), 1)` with
`S = min(100, |schedule_variance| * 10) * 0.3`,
`C = min(100, |cost_variance| * 10) * 0.3`, and `F = mean(risk_factors) * 0.4`
for a non-empty factor list, `0` otherwise. -/
theorem risk_score_correct (sv cv : ℚ) (rf : List ℚ) :
    calculate_risk_score sv cv rf =
      roundTo 1 (min 100
        (min 100 (|sv| * 10) * (3 / 10) + min 100 (|cv| * 10) * (3 / 10) +
          if rf ≠ [] then rf.sum / rf.length * (4 / 10) else 0)) :=
  calculate_risk_score_eq sv cv rf

/-- C8: `calculate_portfolio_metrics` on an empty project list returns the
empty summary and leaves the cache untouched. -/
theorem portfolio_empty_correct (cache : Cache) (now : ℕ) :
    calculate_portfolio_metrics cache now [] = (none, cache) := rfl

/-- C10: the `budget_variance` field of the returned and cached record is
the `cost_variance` input (default 0), and the `schedule_variance` field is
the `schedule_variance` input unchanged. -/
theorem variance_passthrough (cache : Cache) (now : ℕ) (pid : String)
    (kw : ProjectKwargs) :
    (calculate_metrics cache now pid kw).1.budget_variance =
      kw.cost_variance.getD 0 ∧
    (calculate_metrics cache now pid kw).1.schedule_variance =
      kw.schedule_variance.getD 0 ∧
    (calculate_metrics cache now pid kw).2 pid =
      some (calculate_metrics cache now pid kw).1 := by
  refine ⟨rfl, rfl, ?_⟩
  simp [calculate_metrics]

/-- C1: `calculate_project_health` classifies the untruncated score — the sum
of the schedule tier (40/25/10/0 at thresholds 1.0/0.95/0.85), the cost tier
(40/25/10/0 at thresholds 1.0/0.90/0.75), and `max(0, 20 * (1 -
risk_score/100))` — as Green iff ≥ 75, Yellow iff 50 ≤ score < 75, Red iff
< 50, and returns the integer-truncated score as the percentage. -/
theorem project_health_correct (spi cpi r : ℚ) :
    ((calculate_project_health spi cpi r).1 = "Green" ↔
      75 ≤ health_score_spec spi cpi r) ∧
    ((calculate_project_health spi cpi r).1 = "Yellow" ↔
      50 ≤ health_score_spec spi cpi r ∧ health_score_spec spi cpi r < 75) ∧
    ((calculate_project_health spi cpi r).1 = "Red" ↔
      health_score_spec spi cpi r < 50) ∧
    (calculate_project_health spi cpi r).2 =
      truncQ (health_score_spec spi cpi r) := by
  rw [calculate_project_health_unfold]
  dsimp only
  split_ifs with h75 h50
  · exact ⟨iff_of_true rfl h75,
      iff_of_false (by decide) (fun hc => absurd hc.2 (not_lt.mpr h75)),
      iff_of_false (by decide) (not_lt.mpr (by linarith)), rfl⟩
  · exact ⟨iff_of_false (by decide) h75,
      iff_of_true rfl ⟨h50, not_le.mp h75⟩,
      iff_of_false (by decide) (not_lt.mpr h50), rfl⟩
  · exact ⟨iff_of_false (by decide) h75,
      iff_of_false (by decide) (fun hc => h50 hc.1),
      iff_of_true rfl (not_le.mp h50), rfl⟩

/-- C6: a missing optional field of `calculate_metrics` is replaced by its
default and is never an error — the call's result equals the result of the
same call with all defaults supplied explicitly. -/
theorem metrics_defaults_correct (cache : Cache) (now : ℕ) (pid : String)
    (kw : ProjectKwargs) :
    calculate_metrics cache now pid kw =
      calculate_metrics cache now pid (fillDefaults kw) := by
  unfold calculate_metrics fillDefaults
  simp

/-- C9: two `calculate_metrics` calls with the same project id and identical
input fields agree on every field except `calculated_at`, and afterwards the
cache maps the id to exactly the most recently returned record, which
`get_project_metrics` returns. -/
theorem metrics_idempotent (cache : Cache) (t1 t2 : ℕ) (pid : String)
    (kw : ProjectKwargs) :
    (calculate_metrics (calculate_metrics cache t1 pid kw).2 t2 pid kw).1 =
      { (calculate_metrics cache t1 pid kw).1 with calculated_at := t2 } ∧
    (calculate_metrics (calculate_metrics cache t1 pid kw).2 t2 pid kw).2 pid =
      some (calculate_metrics (calculate_metrics cache t1 pid kw).2 t2 pid kw).1 ∧
    get_project_metrics
        (calculate_metrics (calculate_metrics cache t1 pid kw).2 t2 pid kw).2 pid =
      some (calculate_metrics (calculate_metrics cache t1 pid kw).2 t2 pid kw).1 := by
  refine ⟨rfl, ?_, ?_⟩ <;> simp [calculate_metrics, get_project_metrics]

/-- C7: on a non-empty project list, `calculate_portfolio_metrics` runs the
per-project pipeline sequentially in input order (threading the cache writes)
and returns the project count, the mean of the per-project risk scores (as
`avg_health_score`), the Red-status count, the mean team utilization, and the
mean SPI. -/
theorem portfolio_correct (cache : Cache) (now : ℕ)
    (projects : List PortfolioProject) (h : projects ≠ []) :
    calculate_portfolio_metrics cache now projects =
      (some
        { total_projects := projects.length
          avg_health_score :=
            (projects.map (fun p => (project_result now p).risk_score)).sum /
              projects.length
          at_risk_count := projects.countP (isRed now)
          avg_budget_utilization :=
            (projects.map (fun p => (project_result now p).team_utilization)).sum /
              projects.length
          avg_schedule_health :=
            (projects.map
              (fun p => (project_result now p).schedule_performance_index)).sum /
              projects.length },
       projects.foldl (portfolio_cache_step now) cache) := by
  unfold calculate_portfolio_metrics
  have hl : projects.length ≠ 0 := by simpa [List.length_eq_zero] using h
  rw [if_neg hl, portfolio_foldl_spec]
  simp [mean_or_zero, hl]

/-- C7 witness: the portfolio summary at the one-project list
`[⟨"P", defaults⟩]`. -/
theorem portfolio_correct_witness :
    (([{ id := "P" }] : List PortfolioProject) ≠ []) ∧
    calculate_portfolio_metrics Cache.empty 0 [{ id := "P" }] =
      (some
        { total_projects := ([{ id := "P" }] : List PortfolioProject).length
          avg_health_score :=
            (([{ id := "P" }] : List PortfolioProject).map
              (fun p => (project_result 0 p).risk_score)).sum /
              ([{ id := "P" }] : List PortfolioProject).length
          at_risk_count :=
            ([{ id := "P" }] : List PortfolioProject).countP (isRed 0)
          avg_budget_utilization :=
            (([{ id := "P" }] : List PortfolioProject).map
              (fun p => (project_result 0 p).team_utilization)).sum /
              ([{ id := "P" }] : List PortfolioProject).length
          avg_schedule_health :=
            (([{ id := "P" }] : List PortfolioProject).map
              (fun p => (project_result 0 p).schedule_performance_index)).sum /
              ([{ id := "P" }] : List PortfolioProject).length },
       ([{ id := "P" }] : List PortfolioProject).foldl
         (portfolio_cache_step 0) Cache.empty) :=
  ⟨by simp, portfolio_correct Cache.empty 0 [{ id := "P" }] (by simp)⟩

/-- C3 counterexample: with a negative risk-factor entry the score escapes
[0, 100] — `calculate_risk_score 0 0 [-1000] = -400`. -/
theorem risk_score_bounds_cex :
    calculate_risk_score 0 0 [-1000] = -400 ∧
    ¬ (0 ≤ calculate_risk_score 0 0 [-1000] ∧
        calculate_risk_score 0 0 [-1000] ≤ 100) := by
  have h : calculate_risk_score 0 0 [-1000] = -400 := by
    unfold calculate_risk_score
    norm_num [roundTo, round_eq]
  refine ⟨h, ?_⟩
  rw [h]
  norm_num

/-- C3 (amended): for every real-valued schedule and cost variance and every
risk-factor list whose entries are all nonnegative, the value returned by
`calculate_risk_score` lies in [0, 100]. -/
theorem risk_score_bounds (sv cv : ℚ) (rf : List ℚ)
    (h : ∀ x ∈ rf, 0 ≤ x) :
    0 ≤ calculate_risk_score sv cv rf ∧ calculate_risk_score sv cv rf ≤ 100 := by
  rw [calculate_risk_score_eq]
  have hs : (0 : ℚ) ≤ min 100 (|sv| * 10) * (3 / 10) :=
    mul_nonneg (le_min (by norm_num) (by positivity)) (by norm_num)
  have hc : (0 : ℚ) ≤ min 100 (|cv| * 10) * (3 / 10) :=
    mul_nonneg (le_min (by norm_num) (by positivity)) (by norm_num)
  have hf : (0 : ℚ) ≤ if rf ≠ [] then rf.sum / rf.length * (4 / 10) else 0 := by
    split
    · exact mul_nonneg (div_nonneg (List.sum_nonneg h) (by positivity)) (by norm_num)
    · exact le_refl 0
  constructor
  · exact roundTo_nonneg 1 (le_min (by norm_num) (by linarith))
  · exact roundTo_le_100 1 (min_le_left _ _)

/-- C3 witness: the amended bound at variances 0, 0 and factors
[25, 30, 20]. -/
theorem risk_score_bounds_witness :
    (∀ x ∈ ([25, 30, 20] : List ℚ), 0 ≤ x) ∧
    (0 ≤ calculate_risk_score 0 0 [25, 30, 20] ∧
      calculate_risk_score 0 0 [25, 30, 20] ≤ 100) :=
  ⟨by norm_num, risk_score_bounds 0 0 [25, 30, 20] (by norm_num)⟩

end Analytics
